import Mathlib

/-!
Shallow embedding of the access-controlled caching database proxy from
`src/engenharia/2-design-patterns/estruturais/code_tests/proxy.py`.

Modelling conventions:
* Timestamps (`datetime.now()`) are modelled as a `Nat` parameter `now`
  threaded through each top-level call; within one call the code reads
  the clock several times in a row, which we collapse to the single
  instant `now`.
* The MD5 digest used for cache keys is modelled by the canonicalized
  text itself (equal inputs give equal digests; distinct canonical texts
  are assumed collision-free, as the spec's keying contract does).
* Python dicts are modelled as association lists in insertion order:
  assigning an existing key keeps its position, assigning a fresh key
  appends, matching CPython's ordered-dict semantics.  `_cache` and
  `_access_times` always hold the same keys in the same order in the
  source, so one list of `CacheEntry` represents both.
* Row records are opaque; `rows : List String` stands for the list of
  row dictionaries (only its length is ever observed by the proxy).
* The backing store (`RealDatabaseService`) performs I/O, sleeps and
  random draws; it is modelled by a `StoreBehavior` of deterministic
  response functions plus a mutable `Store` state with call counters
  instrumenting "did the proxy reach the store".  A `none` response
  models an exception raised by the store's execute methods.
* Python exceptions raised by the proxy are modelled with `Except`:
  `PermissionError` ↦ `ProxyError.permissionError`,
  `RuntimeError "Failed to connect"` ↦ `ProxyError.connectionError`,
  an exception propagated from the store ↦ `ProxyError.executionError`.
-/

namespace ProxySpec

/-- Computable equality test for `Except`, so that witnesses can evaluate
proxy results with `decide`. -/
def exceptDecEq {e a : Type} [DecidableEq e] [DecidableEq a] :
    (x y : Except e a) → Decidable (x = y)
  | Except.error u, Except.error v =>
    if h : u = v then isTrue (by rw [h])
    else isFalse (by intro hh; injection hh; contradiction)
  | Except.error _, Except.ok _ => isFalse (fun hh => Except.noConfusion hh)
  | Except.ok _, Except.error _ => isFalse (fun hh => Except.noConfusion hh)
  | Except.ok u, Except.ok v =>
    if h : u = v then isTrue (by rw [h])
    else isFalse (by intro hh; injection hh; contradiction)

instance {e a : Type} [DecidableEq e] [DecidableEq a] : DecidableEq (Except e a) :=
  exceptDecEq

/-- Mirrors `PermissionType` (proxy.py lines 13-19). -/
inductive PermissionType where
  | SELECT
  | INSERT
  | UPDATE
  | DELETE
  | DDL
  | ADMIN
deriving DecidableEq

/-- Mirrors the `QueryResult` dataclass (proxy.py lines 22-31); rows are
opaque row records, `execution_time` is an abstract duration. -/
structure QueryResult where
  rows : List String
  affected_rows : Int
  execution_time : Nat
  timestamp : Nat
deriving DecidableEq

/-- Mirrors `UserPermissions.__init__` (proxy.py lines 220-223); the
permission set is a list used only through membership tests. -/
structure UserPermissions where
  user_id : String
  permissions : List PermissionType
deriving DecidableEq

/-- Mirrors `UserPermissions.can_execute_select` (proxy.py lines 225-229). -/
def UserPermissions.can_execute_select (up : UserPermissions) : Bool :=
  up.permissions.contains PermissionType.SELECT
    || up.permissions.contains PermissionType.ADMIN

/-- Mirrors `UserPermissions.can_execute_insert` (proxy.py lines 231-235). -/
def UserPermissions.can_execute_insert (up : UserPermissions) : Bool :=
  up.permissions.contains PermissionType.INSERT
    || up.permissions.contains PermissionType.ADMIN

/-- Mirrors `UserPermissions.can_execute_update` (proxy.py lines 237-241). -/
def UserPermissions.can_execute_update (up : UserPermissions) : Bool :=
  up.permissions.contains PermissionType.UPDATE
    || up.permissions.contains PermissionType.ADMIN

/-- Mirrors `UserPermissions.can_execute_delete` (proxy.py lines 243-247). -/
def UserPermissions.can_execute_delete (up : UserPermissions) : Bool :=
  up.permissions.contains PermissionType.DELETE
    || up.permissions.contains PermissionType.ADMIN

/-- Mirrors `UserPermissions.can_execute_ddl` (proxy.py lines 249-253). -/
def UserPermissions.can_execute_ddl (up : UserPermissions) : Bool :=
  up.permissions.contains PermissionType.DDL
    || up.permissions.contains PermissionType.ADMIN

/-- Python `str.upper()` on the ASCII fragment the source exercises;
character-list level so that the kernel can evaluate it. -/
def upperStr (s : String) : String := String.mk (s.data.map Char.toUpper)

/-- Python `str.lower()` on the ASCII fragment the source exercises. -/
def lowerStr (s : String) : String := String.mk (s.data.map Char.toLower)

/-- Leading-segment test on character lists (Python `str.startswith`). -/
def hasPfx : List Char → List Char → Bool
  | _, [] => true
  | [], _ :: _ => false
  | c :: cs, d :: ds => c = d && hasPfx cs ds

/-- Python `str.startswith(p)`. -/
def startsWithStr (s p : String) : Bool := hasPfx s.data p.data

/-- Python `str.strip()`: drop whitespace from both ends. -/
def trimStr (s : String) : String :=
  String.mk (((s.data.dropWhile Char.isWhitespace).reverse.dropWhile
    Char.isWhitespace).reverse)

/-- Mirrors `UserPermissions.has_permission` (proxy.py lines 255-267):
textual dispatch on `operation.upper()` with no stripping; an operation
text matching none of the recognised leading keywords is denied. -/
def UserPermissions.has_permission (up : UserPermissions) (operation : String) : Bool :=
  let u := upperStr operation
  if startsWithStr u "SELECT" then up.can_execute_select
  else if startsWithStr u "INSERT" then up.can_execute_insert
  else if startsWithStr u "UPDATE" then up.can_execute_update
  else if startsWithStr u "DELETE" then up.can_execute_delete
  else if startsWithStr u "CREATE" || startsWithStr u "ALTER" || startsWithStr u "DROP" then
    up.can_execute_ddl
  else false

/-- The textual classification performed by `has_permission`: true when
the operation text begins (case-insensitively, without stripping) with
one of the recognised SQL keywords, i.e. when it has an operation kind. -/
def recognizedOp (operation : String) : Bool :=
  let u := upperStr operation
  startsWithStr u "SELECT" || startsWithStr u "INSERT" || startsWithStr u "UPDATE"
    || startsWithStr u "DELETE" || startsWithStr u "CREATE" || startsWithStr u "ALTER"
    || startsWithStr u "DROP"

/-- Canonicalization `query.lower().strip()` used by the cache key and
the cache-this-result test (proxy.py lines 279 and 537). -/
def canonText (q : String) : String := trimStr (lowerStr q)

/-- Mirrors `QueryCache._get_cache_key` (proxy.py lines 278-279); the MD5
hex digest is modelled by the canonical text itself. -/
def getCacheKey (q : String) : String := canonText q

/-- One cache slot: key with the value and the `(insertedAt, lastAccessedAt)`
pair held by `_cache` and `_access_times` for that key. -/
structure CacheEntry where
  key : String
  value : QueryResult
  insertedAt : Nat
  lastAccessedAt : Nat
deriving DecidableEq

/-- Mirrors the `QueryCache` state (proxy.py lines 270-276); `entries` is
the shared insertion order of `_cache` and `_access_times`. -/
structure QueryCache where
  max_size : Nat
  ttl_seconds : Nat
  entries : List CacheEntry
deriving DecidableEq

/-- First entry with the given key (Python dict lookup; keys are unique
in the source, so first occurrence is the occurrence). -/
def lookupEntry : List CacheEntry → String → Option CacheEntry
  | [], _ => none
  | e :: es, k => if e.key = k then some e else lookupEntry es k

/-- Reassign `_access_times[key] = now`: update in place, keeping the
dict position of the key. -/
def touchEntry : List CacheEntry → String → Nat → List CacheEntry
  | [], _, _ => []
  | e :: es, k, now =>
    if e.key = k then { e with lastAccessedAt := now } :: es
    else e :: touchEntry es k now

/-- Python `del dict[key]`: remove the (unique) entry with the key. -/
def eraseKey : List CacheEntry → String → List CacheEntry
  | [], _ => []
  | e :: es, k => if e.key = k then es else e :: eraseKey es k

/-- Python `min(keys, key=...)` as a fold: keep the current best, replace
it only on a strictly smaller access time (so the first minimum wins). -/
def pickMin (b : CacheEntry) : List CacheEntry → CacheEntry
  | [] => b
  | e :: es => pickMin (if e.lastAccessedAt < b.lastAccessedAt then e else b) es

/-- Mirrors `QueryCache._evict_oldest` (proxy.py lines 311-319): on a
nonempty cache, delete the key with the smallest recorded access time. -/
def evictOldest (es : List CacheEntry) : List CacheEntry :=
  match es with
  | [] => es
  | e :: rest => eraseKey es (pickMin e rest).key

/-- Python `dict[key] = value` on both dicts: replace in place when the
key exists, append when fresh; both timestamps become `now`. -/
def insertEntry : List CacheEntry → String → QueryResult → Nat → List CacheEntry
  | [], k, r, now => [⟨k, r, now, now⟩]
  | e :: es, k, r, now =>
    if e.key = k then ⟨k, r, now, now⟩ :: es
    else e :: insertEntry es k r now

/-- Mirrors `QueryCache.get` (proxy.py lines 281-298): expired entries
(`now - insertedAt ≥ ttl`) are purged and miss; fresh hits touch the
access time. -/
def QueryCache.get (c : QueryCache) (q : String) (now : Nat) :
    Option QueryResult × QueryCache :=
  let key := getCacheKey q
  match lookupEntry c.entries key with
  | some e =>
    if now - e.insertedAt < c.ttl_seconds then
      (some e.value, { c with entries := touchEntry c.entries key now })
    else
      (none, { c with entries := eraseKey c.entries key })
  | none => (none, c)

/-- Mirrors `QueryCache.put` (proxy.py lines 300-309): evict once when
`len(cache) >= max_size`, then insert with both timestamps `now`. -/
def QueryCache.put (c : QueryCache) (q : String) (r : QueryResult) (now : Nat) :
    QueryCache :=
  let key := getCacheKey q
  let es := if c.max_size ≤ c.entries.length then evictOldest c.entries else c.entries
  { c with entries := insertEntry es key r now }

/-- Mirrors `QueryCache.clear` (proxy.py lines 321-324). -/
def QueryCache.clear (c : QueryCache) : QueryCache :=
  { c with entries := [] }

/-- Keys are pairwise distinct (always true of the Python dicts). -/
def NodupKeys (es : List CacheEntry) : Prop :=
  es.Pairwise (fun a b => a.key ≠ b.key)

instance (es : List CacheEntry) : Decidable (NodupKeys es) :=
  inferInstanceAs (Decidable (es.Pairwise (fun a b : CacheEntry => a.key ≠ b.key)))

/-- The `result` argument of `AuditLogger.log_query` is either a
`QueryResult` (from `execute_query`) or an affected-row count (the `int`
that `execute_update` passes). -/
inductive LogValue where
  | queryRes (r : QueryResult)
  | updateCount (n : Int)
deriving DecidableEq

/-- One entry of `AuditLogger._logs`: heterogeneous dict modelled with
optional fields (`query`/`rows_returned` are only present on QUERY
entries). -/
structure LogEntry where
  timestamp : Nat
  user_id : String
  operation : String
  query : Option String
  success : Bool
  rows_returned : Option Nat
deriving DecidableEq

/-- Mirrors `AuditLogger.log_query` (proxy.py lines 337-350):
`success = result is not None` and `rows_returned = len(result.rows) if
hasattr(result, "rows") else 0` (so `0` for both `None` and ints). -/
def log_query_entry (uid : String) (now : Nat) (q : String) (res : Option LogValue) :
    LogEntry :=
  { timestamp := now
    user_id := uid
    operation := "QUERY"
    query := some q
    success := res.isSome
    rows_returned := some (match res with
      | some (LogValue.queryRes r) => r.rows.length
      | _ => 0) }

/-- Mirrors `AuditLogger.log_connection` (proxy.py lines 352-364). -/
def log_connection_entry (uid : String) (now : Nat) (success : Bool) : LogEntry :=
  { timestamp := now
    user_id := uid
    operation := "CONNECTION"
    query := none
    success := success
    rows_returned := none }

/-- Mirrors `AuditLogger.log_transaction` (proxy.py lines 366-377);
`operation` is always one of BEGIN/COMMIT/ROLLBACK, already uppercase. -/
def log_transaction_entry (uid : String) (now : Nat) (op : String) : LogEntry :=
  { timestamp := now
    user_id := uid
    operation := "TRANSACTION_" ++ upperStr op
    query := none
    success := true
    rows_returned := none }

/-- Mirrors the `MetricsCollector` counters (proxy.py lines 384-391). -/
structure MetricsCollector where
  query_count : Nat
  cache_hits : Nat
  cache_misses : Nat
  total_execution_time : Nat
  connection_count : Nat
deriving DecidableEq

/-- Mirrors `MetricsCollector.record_query` (proxy.py lines 393-396). -/
def record_query (m : MetricsCollector) (t : Nat) : MetricsCollector :=
  { m with query_count := m.query_count + 1,
           total_execution_time := m.total_execution_time + t }

/-- Mirrors `MetricsCollector.record_cache_hit` (proxy.py lines 398-400). -/
def record_cache_hit (m : MetricsCollector) : MetricsCollector :=
  { m with cache_hits := m.cache_hits + 1 }

/-- Mirrors `MetricsCollector.record_cache_miss` (proxy.py lines 402-404). -/
def record_cache_miss (m : MetricsCollector) : MetricsCollector :=
  { m with cache_misses := m.cache_misses + 1 }

/-- Mirrors `MetricsCollector.record_connection` (proxy.py lines 406-408). -/
def record_connection (m : MetricsCollector) : MetricsCollector :=
  { m with connection_count := m.connection_count + 1 }

/-- Deterministic responses of the backing store, abstracting the mock's
random draws and hard-coded data: `none` from `queryFn`/`updateFn`
models an exception raised by the store's execute method, `connectOk`
fixes the outcome of a connection attempt (the mock flips a coin). -/
structure StoreBehavior where
  connectOk : Bool
  queryFn : String → Option QueryResult
  updateFn : String → Option Int

/-- Mutable state of `RealDatabaseService` (proxy.py lines 82-86) plus
call counters instrumenting how often the proxy reached the store. -/
structure Store where
  connected : Bool
  in_transaction : Bool
  queryCalls : Nat
  updateCalls : Nat
deriving DecidableEq

/-- A freshly constructed `RealDatabaseService(config)`. -/
def Store.init : Store :=
  { connected := false, in_transaction := false, queryCalls := 0, updateCalls := 0 }

/-- Mirrors `RealDatabaseService.connect` (proxy.py lines 118-137):
idempotent when connected; otherwise succeeds or fails per `connectOk`. -/
def Store.connect (b : StoreBehavior) (s : Store) : Bool × Store :=
  if s.connected then (true, s)
  else if b.connectOk then (true, { s with connected := true })
  else (false, s)

/-- Mirrors `RealDatabaseService.execute_query` (proxy.py lines 148-176):
raises when disconnected (unreachable through the proxy, which ensures a
connection first); otherwise answers per `queryFn`, counting the call. -/
def Store.execute_query (b : StoreBehavior) (s : Store) (q : String) :
    Option QueryResult × Store :=
  if s.connected then
    (b.queryFn q, { s with queryCalls := s.queryCalls + 1 })
  else (none, s)

/-- Mirrors `RealDatabaseService.execute_update` (proxy.py lines 178-189). -/
def Store.execute_update (b : StoreBehavior) (s : Store) (q : String) :
    Option Int × Store :=
  if s.connected then
    (b.updateFn q, { s with updateCalls := s.updateCalls + 1 })
  else (none, s)

/-- Mirrors `RealDatabaseService.begin_transaction` (proxy.py lines 191-197). -/
def Store.begin_transaction (s : Store) : Bool × Store :=
  if s.connected then (true, { s with in_transaction := true }) else (false, s)

/-- Mirrors `RealDatabaseService.commit_transaction` (proxy.py lines
199-205): returns `False` when no transaction is open. -/
def Store.commit_transaction (s : Store) : Bool × Store :=
  if s.in_transaction then (true, { s with in_transaction := false }) else (false, s)

/-- Mirrors `RealDatabaseService.rollback_transaction` (proxy.py lines
207-213): returns `False` when no transaction is open. -/
def Store.rollback_transaction (s : Store) : Bool × Store :=
  if s.in_transaction then (true, { s with in_transaction := false }) else (false, s)

/-- Errors the proxy raises: `PermissionError` on a denied operation,
`RuntimeError("Failed to connect to database")` when the lazy connect
fails, and the propagated store exception (proxy.py lines 502, 525, 547). -/
inductive ProxyError where
  | permissionError
  | connectionError
  | executionError
deriving DecidableEq

/-- Mirrors the `DatabaseProxy` state (proxy.py lines 444-457):
lazily created store handle, cache, append-only audit list, metrics. -/
structure DatabaseProxy where
  behavior : StoreBehavior
  user_permissions : UserPermissions
  real_service : Option Store
  query_cache : QueryCache
  audit_logger : List LogEntry
  metrics : MetricsCollector

/-- Mirrors `DatabaseProxy.connect` (proxy.py lines 475-488): lazily
create the service, attempt the store connect, audit the outcome, and
count a connection metric on success. -/
def DatabaseProxy.connect (p : DatabaseProxy) (now : Nat) : Bool × DatabaseProxy :=
  let svc := p.real_service.getD Store.init
  let res := Store.connect p.behavior svc
  (res.1,
    { p with
        real_service := some res.2
        audit_logger := p.audit_logger ++
          [log_connection_entry p.user_permissions.user_id now res.1]
        metrics := if res.1 then record_connection p.metrics else p.metrics })

/-- The body of `DatabaseProxy.execute_query` from the store call on
(proxy.py lines 528-547): execute, record duration, cache the result
only for select-texts, audit; on a store exception audit the failure
and re-raise. -/
def runQueryOnStore (p : DatabaseProxy) (query : String) (now : Nat) :
    Except ProxyError QueryResult × DatabaseProxy :=
  let svc := p.real_service.getD Store.init
  match Store.execute_query p.behavior svc query with
  | (some result, svc1) =>
    let pA : DatabaseProxy :=
      { p with real_service := some svc1
               metrics := record_query p.metrics result.execution_time }
    let pB : DatabaseProxy :=
      if startsWithStr (canonText query) "select" then
        { pA with query_cache := pA.query_cache.put query result now }
      else pA
    (Except.ok result,
      { pB with audit_logger := pB.audit_logger ++
          [log_query_entry p.user_permissions.user_id now query
            (some (LogValue.queryRes result))] })
  | (none, svc1) =>
    (Except.error ProxyError.executionError,
      { p with real_service := some svc1
               audit_logger := p.audit_logger ++
                 [log_query_entry p.user_permissions.user_id now query none] })

/-- Mirrors `DatabaseProxy.execute_query` (proxy.py lines 496-547):
permission gate (no audit on denial), cache lookup, cache-miss metric,
lazy service creation, connection ensure, then the store call. -/
def DatabaseProxy.execute_query (p : DatabaseProxy) (query : String) (now : Nat) :
    Except ProxyError QueryResult × DatabaseProxy :=
  if p.user_permissions.has_permission query then
    match p.query_cache.get query now with
    | (some cached, cache1) =>
      (Except.ok cached,
        { p with
            query_cache := cache1
            metrics := record_cache_hit p.metrics
            audit_logger := p.audit_logger ++
              [log_query_entry p.user_permissions.user_id now query
                (some (LogValue.queryRes cached))] })
    | (none, cache1) =>
      let p1 : DatabaseProxy :=
        { p with query_cache := cache1, metrics := record_cache_miss p.metrics }
      let svc := p1.real_service.getD Store.init
      let p2 : DatabaseProxy := { p1 with real_service := some svc }
      if svc.connected then
        runQueryOnStore p2 query now
      else
        match p2.connect now with
        | (true, p3) => runQueryOnStore p3 query now
        | (false, p3) => (Except.error ProxyError.connectionError, p3)
  else (Except.error ProxyError.permissionError, p)

/-- The body of `DatabaseProxy.execute_update` from the store call on
(proxy.py lines 562-579): execute, clear the cache unless the text is a
select, record metrics, audit; on a store exception audit and re-raise. -/
def runUpdateOnStore (p : DatabaseProxy) (query : String) (now : Nat) :
    Except ProxyError Int × DatabaseProxy :=
  let svc := p.real_service.getD Store.init
  match Store.execute_update p.behavior svc query with
  | (some n, svc1) =>
    let pA : DatabaseProxy := { p with real_service := some svc1 }
    let pB : DatabaseProxy :=
      if !(startsWithStr (canonText query) "select") then
        { pA with query_cache := pA.query_cache.clear }
      else pA
    let pC : DatabaseProxy := { pB with metrics := record_query pB.metrics 0 }
    (Except.ok n,
      { pC with audit_logger := pC.audit_logger ++
          [log_query_entry p.user_permissions.user_id now query
            (some (LogValue.updateCount n))] })
  | (none, svc1) =>
    (Except.error ProxyError.executionError,
      { p with real_service := some svc1
               audit_logger := p.audit_logger ++
                 [log_query_entry p.user_permissions.user_id now query none] })

/-- Mirrors `DatabaseProxy.execute_update` (proxy.py lines 549-579):
permission gate (no audit on denial), lazy service creation, connection
ensure, then the store update. -/
def DatabaseProxy.execute_update (p : DatabaseProxy) (query : String) (now : Nat) :
    Except ProxyError Int × DatabaseProxy :=
  if p.user_permissions.has_permission query then
    let svc := p.real_service.getD Store.init
    let p2 : DatabaseProxy := { p with real_service := some svc }
    if svc.connected then
      runUpdateOnStore p2 query now
    else
      match p2.connect now with
      | (true, p3) => runUpdateOnStore p3 query now
      | (false, p3) => (Except.error ProxyError.connectionError, p3)
  else (Except.error ProxyError.permissionError, p)

/-- Mirrors `DatabaseProxy.begin_transaction` (proxy.py lines 581-592):
connect first only when the service does not exist yet; audit BEGIN on
success. -/
def DatabaseProxy.begin_transaction (p : DatabaseProxy) (now : Nat) :
    Bool × DatabaseProxy :=
  match p.real_service with
  | none =>
    (match p.connect now with
     | (true, p1) =>
       let svc := p1.real_service.getD Store.init
       let res := Store.begin_transaction svc
       let p2 : DatabaseProxy := { p1 with real_service := some res.2 }
       if res.1 then
         (true, { p2 with audit_logger := p2.audit_logger ++
             [log_transaction_entry p2.user_permissions.user_id now "BEGIN"] })
       else (false, p2)
     | (false, p1) => (false, p1))
  | some svc =>
    let res := Store.begin_transaction svc
    let p2 : DatabaseProxy := { p with real_service := some res.2 }
    if res.1 then
      (true, { p2 with audit_logger := p2.audit_logger ++
          [log_transaction_entry p2.user_permissions.user_id now "BEGIN"] })
    else (false, p2)

/-- Mirrors `DatabaseProxy.commit_transaction` (proxy.py lines 594-603):
returns `False` when the service was never created or the store reports
no open transaction; on success audits COMMIT and clears the cache. -/
def DatabaseProxy.commit_transaction (p : DatabaseProxy) (now : Nat) :
    Bool × DatabaseProxy :=
  match p.real_service with
  | none => (false, p)
  | some svc =>
    let res := Store.commit_transaction svc
    let p2 : DatabaseProxy := { p with real_service := some res.2 }
    if res.1 then
      (true, { p2 with
          audit_logger := p2.audit_logger ++
            [log_transaction_entry p2.user_permissions.user_id now "COMMIT"]
          query_cache := p2.query_cache.clear })
    else (false, p2)

/-- Mirrors `DatabaseProxy.rollback_transaction` (proxy.py lines 605-612):
as commit, but audits ROLLBACK and leaves the cache untouched. -/
def DatabaseProxy.rollback_transaction (p : DatabaseProxy) (now : Nat) :
    Bool × DatabaseProxy :=
  match p.real_service with
  | none => (false, p)
  | some svc =>
    let res := Store.rollback_transaction svc
    let p2 : DatabaseProxy := { p with real_service := some res.2 }
    if res.1 then
      (true, { p2 with audit_logger := p2.audit_logger ++
          [log_transaction_entry p2.user_permissions.user_id now "ROLLBACK"] })
    else (false, p2)

/-! ### Association-list lemmas for the cache -/

theorem lookup_insertEntry (es : List CacheEntry) (k : String) (r : QueryResult)
    (now : Nat) : lookupEntry (insertEntry es k r now) k = some ⟨k, r, now, now⟩ := by
  induction es with
  | nil => simp [insertEntry, lookupEntry]
  | cons e es ih =>
    by_cases h : e.key = k
    · simp [insertEntry, h, lookupEntry]
    · simp [insertEntry, h, lookupEntry, ih]

theorem insertEntry_length_le (es : List CacheEntry) (k : String) (r : QueryResult)
    (now : Nat) : (insertEntry es k r now).length ≤ es.length + 1 := by
  induction es with
  | nil => simp [insertEntry]
  | cons e es ih =>
    by_cases h : e.key = k
    · simp [insertEntry, h]
    · simp only [insertEntry, if_neg h, List.length_cons]
      omega

theorem lookup_eq_none_of_all_ne (es : List CacheEntry) (k : String)
    (h : ∀ e ∈ es, e.key ≠ k) : lookupEntry es k = none := by
  induction es with
  | nil => rfl
  | cons e es ih =>
    simp only [lookupEntry, if_neg (h e (by simp))]
    exact ih fun x hx => h x (by simp [hx])

theorem eraseKey_lookup_none (es : List CacheEntry) (k : String)
    (hnd : NodupKeys es) : lookupEntry (eraseKey es k) k = none := by
  induction es with
  | nil => rfl
  | cons e es ih =>
    rcases List.pairwise_cons.mp hnd with ⟨hhead, htail⟩
    by_cases h : e.key = k
    · simp only [eraseKey, if_pos h]
      exact lookup_eq_none_of_all_ne es k fun x hx => by
        intro hk
        exact hhead x hx (h.trans hk.symm)
    · simp only [eraseKey, if_neg h, lookupEntry, if_neg h]
      exact ih htail

theorem touch_lookup (es : List CacheEntry) (k : String) (now : Nat)
    (e : CacheEntry) (h : lookupEntry es k = some e) :
    lookupEntry (touchEntry es k now) k = some { e with lastAccessedAt := now } := by
  induction es with
  | nil => simp [lookupEntry] at h
  | cons x es ih =>
    by_cases hx : x.key = k
    · simp only [lookupEntry, if_pos hx] at h
      injection h with h
      subst h
      simp [touchEntry, hx, lookupEntry]
    · simp only [lookupEntry, if_neg hx] at h
      simp only [touchEntry, if_neg hx, lookupEntry, if_neg hx]
      exact ih h

theorem pickMin_split (es : List CacheEntry) (b : CacheEntry) :
    ∃ l1 l2, b :: es = l1 ++ pickMin b es :: l2 ∧
      (∀ e ∈ b :: es, (pickMin b es).lastAccessedAt ≤ e.lastAccessedAt) ∧
      (∀ e ∈ l1, (pickMin b es).lastAccessedAt < e.lastAccessedAt) := by
  induction es generalizing b with
  | nil =>
    refine ⟨[], [], by simp [pickMin], ?_, by simp⟩
    intro e he
    simp at he
    simp [pickMin, he]
  | cons x es ih =>
    by_cases h : x.lastAccessedAt < b.lastAccessedAt
    · have hrw : pickMin b (x :: es) = pickMin x es := by simp [pickMin, if_pos h]
      obtain ⟨l1, l2, heq, hle, hlt⟩ := ih x
      refine ⟨b :: l1, l2, ?_, ?_, ?_⟩
      · rw [hrw, List.cons_append, ← heq]
      · intro e he
        rw [hrw]
        rcases List.mem_cons.mp he with rfl | he2
        · have hx : (pickMin x es).lastAccessedAt ≤ x.lastAccessedAt :=
            hle x (by simp)
          omega
        · exact hle e he2
      · intro e he
        rw [hrw]
        rcases List.mem_cons.mp he with rfl | he2
        · have hx : (pickMin x es).lastAccessedAt ≤ x.lastAccessedAt :=
            hle x (by simp)
          omega
        · exact hlt e he2
    · have hrw : pickMin b (x :: es) = pickMin b es := by simp [pickMin, if_neg h]
      obtain ⟨l1, l2, heq, hle, hlt⟩ := ih b
      rw [hrw]
      cases l1 with
      | nil =>
        simp only [List.nil_append] at heq
        injection heq with h1 h2
        refine ⟨[], x :: es, ?_, ?_, by simp⟩
        · simp [← h1]
        · intro e he
          rcases List.mem_cons.mp he with rfl | he2
          · rw [← h1]
          · rcases List.mem_cons.mp he2 with rfl | he3
            · rw [← h1]
              omega
            · exact hle e (List.mem_cons_of_mem b he3)
      | cons a l1 =>
        simp only [List.cons_append] at heq
        injection heq with h1 h2
        subst h1
        refine ⟨b :: x :: l1, l2, ?_, ?_, ?_⟩
        · conv_lhs => rw [h2]
          simp
        · intro e he
          rcases List.mem_cons.mp he with rfl | he2
          · exact hle e (by simp)
          · rcases List.mem_cons.mp he2 with rfl | he3
            · have hb : (pickMin b es).lastAccessedAt < b.lastAccessedAt :=
                hlt b (by simp)
              omega
            · exact hle e (List.mem_cons_of_mem b he3)
        · intro e he
          rcases List.mem_cons.mp he with rfl | he2
          · exact hlt e (by simp)
          · rcases List.mem_cons.mp he2 with rfl | he3
            · have hb : (pickMin b es).lastAccessedAt < b.lastAccessedAt :=
                hlt b (by simp)
              omega
            · exact hlt e (by simp [he3])

theorem eraseKey_append (l1 : List CacheEntry) (m : CacheEntry) (l2 : List CacheEntry)
    (h : ∀ x ∈ l1, x.key ≠ m.key) : eraseKey (l1 ++ m :: l2) m.key = l1 ++ l2 := by
  induction l1 with
  | nil => simp [eraseKey]
  | cons a l1 ih =>
    show eraseKey (a :: (l1 ++ m :: l2)) m.key = a :: (l1 ++ l2)
    simp only [eraseKey, if_neg (h a (by simp))]
    rw [ih fun x hx => h x (by simp [hx])]

theorem evictOldest_spec (es : List CacheEntry) (hnd : NodupKeys es) (hne : es ≠ []) :
    ∃ m l1 l2, es = l1 ++ m :: l2 ∧ evictOldest es = l1 ++ l2 ∧
      (∀ e ∈ es, m.lastAccessedAt ≤ e.lastAccessedAt) ∧
      (∀ e ∈ l1, m.lastAccessedAt < e.lastAccessedAt) := by
  cases es with
  | nil => exact absurd rfl hne
  | cons e rest =>
    obtain ⟨l1, l2, heq, hle, hlt⟩ := pickMin_split rest e
    refine ⟨pickMin e rest, l1, l2, heq, ?_, hle, hlt⟩
    show eraseKey (e :: rest) (pickMin e rest).key = l1 ++ l2
    rw [heq]
    apply eraseKey_append
    intro x hx
    rw [heq] at hnd
    have h3 := (List.pairwise_append.mp hnd).2.2
    exact h3 x hx (pickMin e rest) (by simp)

theorem evictOldest_length (es : List CacheEntry) (hnd : NodupKeys es)
    (hne : es ≠ []) : (evictOldest es).length + 1 = es.length := by
  obtain ⟨m, l1, l2, heq, herase, -, -⟩ := evictOldest_spec es hnd hne
  rw [herase, heq]
  simp only [List.length_append, List.length_cons]
  omega

/-! ### Cache operation shape lemmas -/

theorem put_entries (c : QueryCache) (q : String) (r : QueryResult) (now : Nat) :
    (c.put q r now).entries =
      insertEntry
        (if c.max_size ≤ c.entries.length then evictOldest c.entries else c.entries)
        (getCacheKey q) r now := rfl

theorem put_fields (c : QueryCache) (q : String) (r : QueryResult) (now : Nat) :
    (c.put q r now).max_size = c.max_size ∧
      (c.put q r now).ttl_seconds = c.ttl_seconds := ⟨rfl, rfl⟩

theorem get_absent (c : QueryCache) (q : String) (now : Nat)
    (h : lookupEntry c.entries (getCacheKey q) = none) : c.get q now = (none, c) := by
  simp [QueryCache.get, h]

theorem get_hit (c : QueryCache) (q : String) (now : Nat) (e : CacheEntry)
    (h : lookupEntry c.entries (getCacheKey q) = some e)
    (hf : now - e.insertedAt < c.ttl_seconds) :
    c.get q now =
      (some e.value, { c with entries := touchEntry c.entries (getCacheKey q) now }) := by
  simp [QueryCache.get, h, hf]

theorem get_expired (c : QueryCache) (q : String) (now : Nat) (e : CacheEntry)
    (h : lookupEntry c.entries (getCacheKey q) = some e)
    (hf : ¬ now - e.insertedAt < c.ttl_seconds) :
    c.get q now = (none, { c with entries := eraseKey c.entries (getCacheKey q) }) := by
  simp [QueryCache.get, h, hf]

theorem get_fields (c : QueryCache) (q : String) (now : Nat) :
    ((c.get q now).2).max_size = c.max_size ∧
      ((c.get q now).2).ttl_seconds = c.ttl_seconds := by
  rcases h : lookupEntry c.entries (getCacheKey q) with - | e
  · rw [get_absent c q now h]
    exact ⟨rfl, rfl⟩
  · by_cases hf : now - e.insertedAt < c.ttl_seconds
    · rw [get_hit c q now e h hf]
      exact ⟨rfl, rfl⟩
    · rw [get_expired c q now e h hf]
      exact ⟨rfl, rfl⟩

/-! ### Proxy execution-path lemmas -/

theorem last_append_single {α : Type} (l : List α) (a : α) :
    (l ++ [a]).getLast? = some a := by
  simp

theorem execute_query_denied (p : DatabaseProxy) (q : String) (now : Nat)
    (h : p.user_permissions.has_permission q = false) :
    p.execute_query q now = (Except.error ProxyError.permissionError, p) := by
  simp [DatabaseProxy.execute_query, h]

theorem execute_update_denied (p : DatabaseProxy) (q : String) (now : Nat)
    (h : p.user_permissions.has_permission q = false) :
    p.execute_update q now = (Except.error ProxyError.permissionError, p) := by
  simp [DatabaseProxy.execute_update, h]

theorem execute_query_hit (p : DatabaseProxy) (q : String) (now : Nat)
    (r : QueryResult) (cache1 : QueryCache)
    (hperm : p.user_permissions.has_permission q = true)
    (hget : p.query_cache.get q now = (some r, cache1)) :
    p.execute_query q now =
      (Except.ok r,
        { p with
            query_cache := cache1
            metrics := record_cache_hit p.metrics
            audit_logger := p.audit_logger ++
              [log_query_entry p.user_permissions.user_id now q
                (some (LogValue.queryRes r))] }) := by
  simp [DatabaseProxy.execute_query, hperm, hget]

theorem connect_already (p : DatabaseProxy) (now : Nat)
    (hc : (p.real_service.getD Store.init).connected = true) :
    p.connect now = (true,
      { p with
          real_service := some (p.real_service.getD Store.init)
          audit_logger := p.audit_logger ++
            [log_connection_entry p.user_permissions.user_id now true]
          metrics := record_connection p.metrics }) := by
  simp [DatabaseProxy.connect, Store.connect, hc]

theorem connect_fresh_ok (p : DatabaseProxy) (now : Nat)
    (hc : (p.real_service.getD Store.init).connected = false)
    (hk : p.behavior.connectOk = true) :
    p.connect now = (true,
      { p with
          real_service := some { p.real_service.getD Store.init with connected := true }
          audit_logger := p.audit_logger ++
            [log_connection_entry p.user_permissions.user_id now true]
          metrics := record_connection p.metrics }) := by
  simp [DatabaseProxy.connect, Store.connect, hc, hk]

theorem connect_fresh_fail (p : DatabaseProxy) (now : Nat)
    (hc : (p.real_service.getD Store.init).connected = false)
    (hk : p.behavior.connectOk = false) :
    p.connect now = (false,
      { p with
          real_service := some (p.real_service.getD Store.init)
          audit_logger := p.audit_logger ++
            [log_connection_entry p.user_permissions.user_id now false]
          metrics := p.metrics }) := by
  simp [DatabaseProxy.connect, Store.connect, hc, hk]

theorem execute_update_ok_shape (p : DatabaseProxy) (q : String) (now : Nat)
    (n : Int) (p1 : DatabaseProxy)
    (h : p.execute_update q now = (Except.ok n, p1)) :
    p1.audit_logger.getLast? =
      some (log_query_entry p.user_permissions.user_id now q
        (some (LogValue.updateCount n))) ∧
    (startsWithStr (canonText q) "select" = false → p1.query_cache.entries = []) := by
  unfold DatabaseProxy.execute_update at h
  by_cases hp : p.user_permissions.has_permission q = true
  case neg =>
    simp only [Bool.not_eq_true] at hp
    simp [hp] at h
  simp only [hp, eq_self_iff_true, if_true] at h
  rcases hu : p.behavior.updateFn q with - | k <;>
    by_cases hc : (p.real_service.getD Store.init).connected = true
  · simp [hu, hc, runUpdateOnStore, Store.execute_update] at h
  · simp only [Bool.not_eq_true] at hc
    simp only [hc, Bool.false_eq_true, if_false] at h
    by_cases hk : p.behavior.connectOk = true
    · rw [connect_fresh_ok _ now (by simpa using hc) (by simpa using hk)] at h
      simp [hu, runUpdateOnStore, Store.execute_update] at h
    · simp only [Bool.not_eq_true] at hk
      rw [connect_fresh_fail _ now (by simpa using hc) (by simpa using hk)] at h
      simp at h
  · simp [hu, hc, runUpdateOnStore, Store.execute_update,
      Prod.mk.injEq] at h
    obtain ⟨h1, h2⟩ := h
    subst h1
    rw [← h2]
    constructor
    · simp [last_append_single]
    · intro hsel
      simp [hsel, QueryCache.clear]
  · simp only [Bool.not_eq_true] at hc
    simp only [hc, Bool.false_eq_true, if_false] at h
    by_cases hk : p.behavior.connectOk = true
    · rw [connect_fresh_ok _ now (by simpa using hc) (by simpa using hk)] at h
      simp [hu, runUpdateOnStore, Store.execute_update, Prod.mk.injEq] at h
      obtain ⟨h1, h2⟩ := h
      subst h1
      rw [← h2]
      constructor
      · simp [last_append_single]
      · intro hsel
        simp [hsel, QueryCache.clear]
    · simp only [Bool.not_eq_true] at hk
      rw [connect_fresh_fail _ now (by simpa using hc) (by simpa using hk)] at h
      simp at h

theorem execute_query_fail_shape (p : DatabaseProxy) (q : String) (now : Nat)
    (hp : p.user_permissions.has_permission q = true)
    (hmiss : (p.query_cache.get q now).1 = none)
    (hconn : (p.real_service.getD Store.init).connected = true ∨
      p.behavior.connectOk = true)
    (hqf : p.behavior.queryFn q = none) :
    (p.execute_query q now).1 = Except.error ProxyError.executionError ∧
    ((p.execute_query q now).2).audit_logger.getLast? =
      some (log_query_entry p.user_permissions.user_id now q none) ∧
    ((p.execute_query q now).2).metrics.query_count = p.metrics.query_count ∧
    ((p.execute_query q now).2).query_cache = (p.query_cache.get q now).2 := by
  rcases hq : p.query_cache.get q now with ⟨res, cache1⟩
  rw [hq] at hmiss
  simp only at hmiss
  subst hmiss
  unfold DatabaseProxy.execute_query
  rw [hq]
  simp only [hp, eq_self_iff_true, if_true]
  by_cases hc : (p.real_service.getD Store.init).connected = true
  · simp [hc, runQueryOnStore, Store.execute_query, hqf, last_append_single,
      record_cache_miss]
  · simp only [Bool.not_eq_true] at hc
    have hk : p.behavior.connectOk = true := by
      rcases hconn with hconn | hconn
      · rw [hc] at hconn
        exact absurd hconn (by simp)
      · exact hconn
    simp only [hc, Bool.false_eq_true, if_false]
    rw [connect_fresh_ok _ now (by simpa using hc) (by simpa using hk)]
    simp [runQueryOnStore, Store.execute_query, hqf, last_append_single,
      record_cache_miss, record_connection]

theorem execute_query_ok_shape (p : DatabaseProxy) (q : String) (now : Nat)
    (r : QueryResult) (p1 : DatabaseProxy)
    (hp : p.user_permissions.has_permission q = true)
    (hmiss : (p.query_cache.get q now).1 = none)
    (hsel : startsWithStr (canonText q) "select" = true)
    (hok : p.execute_query q now = (Except.ok r, p1)) :
    p1.query_cache = ((p.query_cache.get q now).2).put q r now ∧
    p1.user_permissions = p.user_permissions ∧
    p1.query_cache.ttl_seconds = p.query_cache.ttl_seconds := by
  rcases hq : p.query_cache.get q now with ⟨res, cache1⟩
  rw [hq] at hmiss
  simp only at hmiss
  subst hmiss
  have hfields := get_fields p.query_cache q now
  rw [hq] at hfields
  unfold DatabaseProxy.execute_query at hok
  rw [hq] at hok
  simp only [hp, eq_self_iff_true, if_true] at hok
  rcases hqf : p.behavior.queryFn q with - | res <;>
    by_cases hc : (p.real_service.getD Store.init).connected = true
  · simp [hqf, hc, runQueryOnStore, Store.execute_query] at hok
  · simp only [Bool.not_eq_true] at hc
    simp only [hc, Bool.false_eq_true, if_false] at hok
    by_cases hk : p.behavior.connectOk = true
    · rw [connect_fresh_ok _ now (by simpa using hc) (by simpa using hk)] at hok
      simp [hqf, runQueryOnStore, Store.execute_query] at hok
    · simp only [Bool.not_eq_true] at hk
      rw [connect_fresh_fail _ now (by simpa using hc) (by simpa using hk)] at hok
      simp at hok
  · simp [hqf, hc, runQueryOnStore, Store.execute_query, hsel,
      Prod.mk.injEq] at hok
    obtain ⟨h1, h2⟩ := hok
    subst h1
    rw [← h2]
    refine ⟨rfl, rfl, ?_⟩
    exact (put_fields _ q _ now).2.trans hfields.2
  · simp only [Bool.not_eq_true] at hc
    simp only [hc, Bool.false_eq_true, if_false] at hok
    by_cases hk : p.behavior.connectOk = true
    · rw [connect_fresh_ok _ now (by simpa using hc) (by simpa using hk)] at hok
      simp [hqf, runQueryOnStore, Store.execute_query, hsel, Prod.mk.injEq] at hok
      obtain ⟨h1, h2⟩ := hok
      subst h1
      rw [← h2]
      refine ⟨rfl, rfl, ?_⟩
      exact (put_fields _ q _ now).2.trans hfields.2
    · simp only [Bool.not_eq_true] at hk
      rw [connect_fresh_fail _ now (by simpa using hc) (by simpa using hk)] at hok
      simp at hok

theorem commit_ok_entries (p : DatabaseProxy) (now : Nat) (p2 : DatabaseProxy)
    (h : p.commit_transaction now = (true, p2)) :
    p2.query_cache.entries = [] := by
  unfold DatabaseProxy.commit_transaction at h
  rcases hs : p.real_service with - | svc
  · rw [hs] at h
    simp at h
  · rw [hs] at h
    by_cases ht : svc.in_transaction = true
    · simp only [Store.commit_transaction, ht, eq_self_iff_true, if_true,
        Prod.mk.injEq] at h
      rw [← h.2]
      simp [QueryCache.clear]
    · simp only [Bool.not_eq_true] at ht
      simp [Store.commit_transaction, ht] at h

theorem eraseKey_subset (es : List CacheEntry) (k : String) :
    ∀ e ∈ eraseKey es k, e ∈ es := by
  induction es with
  | nil => simp [eraseKey]
  | cons x es ih =>
    intro e he
    by_cases hx : x.key = k
    · simp only [eraseKey, if_pos hx] at he
      exact List.mem_cons_of_mem x he
    · simp only [eraseKey, if_neg hx] at he
      rcases List.mem_cons.mp he with rfl | he2
      · simp
      · exact List.mem_cons_of_mem x (ih e he2)

theorem get_none_subset (c : QueryCache) (q : String) (now : Nat)
    (h : (c.get q now).1 = none) :
    ∀ e ∈ ((c.get q now).2).entries, e ∈ c.entries := by
  rcases hl : lookupEntry c.entries (getCacheKey q) with - | x
  · rw [get_absent c q now hl]
    intro e he
    exact he
  · by_cases hf : now - x.insertedAt < c.ttl_seconds
    · rw [get_hit c q now x hl hf] at h
      simp at h
    · rw [get_expired c q now x hl hf]
      exact eraseKey_subset c.entries (getCacheKey q)

/-! ### Concrete fixtures used by witnesses and counterexamples -/

/-- A concrete store answer used by the witnesses. -/
def sampleResult : QueryResult := ⟨["row1", "row2"], 0, 1, 0⟩

/-- A store that always succeeds: queries return `sampleResult`, updates
report 3 affected rows, connecting succeeds. -/
def okBehavior : StoreBehavior :=
  ⟨true, fun _ => some sampleResult, fun _ => some 3⟩

/-- A store whose execute methods always raise. -/
def failBehavior : StoreBehavior := ⟨true, fun _ => none, fun _ => none⟩

/-- Fresh metrics, all counters zero. -/
def metrics0 : MetricsCollector := ⟨0, 0, 0, 0, 0⟩

/-- A credential holding only SELECT. -/
def readOnlyUser : UserPermissions := ⟨"reader", [PermissionType.SELECT]⟩

/-- A credential holding ADMIN. -/
def adminUser : UserPermissions := ⟨"root", [PermissionType.ADMIN]⟩

/-- A credential with no capabilities at all. -/
def noPermsUser : UserPermissions := ⟨"guest", []⟩

/-- An empty cache with the source defaults of `DatabaseProxy.__init__`. -/
def freshCache : QueryCache := ⟨50, 300, []⟩

/-- Proxy for the no-capability user, service not yet created. -/
def proxyGuest : DatabaseProxy :=
  ⟨okBehavior, noPermsUser, none, freshCache, [], metrics0⟩

/-- Proxy for the read-only user, service not yet created. -/
def proxyReader : DatabaseProxy :=
  ⟨okBehavior, readOnlyUser, none, freshCache, [], metrics0⟩

/-- A cache entry as stored under the canonical key of its query text. -/
def cachedEntry : CacheEntry := ⟨"select 1", sampleResult, 0, 0⟩

/-- Admin proxy with a connected service, no open transaction, and one
cached entry. -/
def proxyIdle : DatabaseProxy :=
  ⟨okBehavior, adminUser, some ⟨true, false, 0, 0⟩, ⟨50, 300, [cachedEntry]⟩, [], metrics0⟩

/-- Admin proxy with a connected service and an open transaction. -/
def proxyInTxn : DatabaseProxy :=
  ⟨okBehavior, adminUser, some ⟨true, true, 0, 0⟩, ⟨50, 300, [cachedEntry]⟩, [], metrics0⟩

/-- Read-only proxy whose store raises on every execute. -/
def proxyFailing : DatabaseProxy :=
  ⟨failBehavior, readOnlyUser, some ⟨true, false, 0, 0⟩, freshCache, [], metrics0⟩

/-! ### Claims -/

/-- C1, counterexample: a denied `execute_query`/`execute_update` raises
`PermissionError` but appends NO audit record at all — the audit trail is
still empty after the denied attempts, refuting "appends exactly one
audit record with succeeded = false". -/
theorem C1_counterexample :
    (proxyGuest.execute_query "SELECT * FROM users" 0).1 =
      Except.error ProxyError.permissionError ∧
    ((proxyGuest.execute_query "SELECT * FROM users" 0).2).audit_logger = [] ∧
    (proxyGuest.execute_update "DELETE FROM users" 0).1 =
      Except.error ProxyError.permissionError ∧
    ((proxyGuest.execute_update "DELETE FROM users" 0).2).audit_logger = [] := by
  decide

/-- C1 (amended): when the credential lacks the required capability, both
`execute_query` and `execute_update` raise the authorization error before
any cache lookup and before any store call, leaving the proxy state —
cache, store handle, metrics, and (contrary to the original claim) the
audit trail — completely unchanged; no audit record is appended. -/
theorem C1_denied_no_side_effects (p : DatabaseProxy) (q : String) (now : Nat)
    (h : p.user_permissions.has_permission q = false) :
    p.execute_query q now = (Except.error ProxyError.permissionError, p) ∧
    p.execute_update q now = (Except.error ProxyError.permissionError, p) :=
  ⟨execute_query_denied p q now h, execute_update_denied p q now h⟩

/-- C1 witness: the amended theorem applied to the no-capability proxy. -/
theorem C1_witness :
    proxyGuest.user_permissions.has_permission "SELECT 1" = false ∧
    (proxyGuest.execute_query "SELECT 1" 0 =
        (Except.error ProxyError.permissionError, proxyGuest) ∧
      proxyGuest.execute_update "SELECT 1" 0 =
        (Except.error ProxyError.permissionError, proxyGuest)) :=
  ⟨by decide, C1_denied_no_side_effects proxyGuest "SELECT 1" 0 (by decide)⟩

/-- C2, counterexample: `execute_update` clears the cache only when the
text does not start with "select" after canonicalization; updating with
the text "select 1" succeeds at the store yet leaves the cached entry in
place, refuting "regardless of the operation text". -/
theorem C2_counterexample :
    (proxyIdle.execute_update "select 1" 7).1 = Except.ok 3 ∧
    ((proxyIdle.execute_update "select 1" 7).2).query_cache.entries =
      [cachedEntry] := by
  decide

/-- C2 (amended): after every `execute_update` whose operation text does
not start with "select" once lowercased and trimmed, in which the store
executes the update successfully, the cache holds no entries; and after
every successful `commit_transaction` the cache holds no entries
regardless of anything else. -/
theorem C2_write_clears_cache (p : DatabaseProxy) (q : String) (now : Nat)
    (n : Int) (p1 : DatabaseProxy)
    (hsel : startsWithStr (canonText q) "select" = false)
    (h : p.execute_update q now = (Except.ok n, p1))
    (pc : DatabaseProxy) (nowc : Nat) (p2 : DatabaseProxy)
    (hc : pc.commit_transaction nowc = (true, p2)) :
    p1.query_cache.entries = [] ∧ p2.query_cache.entries = [] :=
  ⟨(execute_update_ok_shape p q now n p1 h).2 hsel,
    commit_ok_entries pc nowc p2 hc⟩

/-- C2 witness: a real UPDATE text through the idle proxy and a commit on
the in-transaction proxy, both emptying the cache. -/
theorem C2_witness :
    startsWithStr (canonText "UPDATE users SET role = admin") "select" = false ∧
    ((proxyIdle.execute_update "UPDATE users SET role = admin" 7).2.query_cache.entries = [] ∧
      (proxyInTxn.commit_transaction 9).2.query_cache.entries = []) :=
  ⟨by decide,
    C2_write_clears_cache proxyIdle "UPDATE users SET role = admin" 7 3
      ((proxyIdle.execute_update "UPDATE users SET role = admin" 7).2)
      (by decide) (by rfl) proxyInTxn 9
      ((proxyInTxn.commit_transaction 9).2) (by rfl)⟩

/-- C3, counterexample: with `max_size = 0` a put leaves one entry in the
cache, exceeding the capacity — `len >= max_size` evicts from an empty
cache (a no-op) and then inserts, so "never holds more than max_size
entries" fails at capacity zero. -/
theorem C3_counterexample :
    (QueryCache.mk 0 300 []).max_size = 0 ∧
    ((QueryCache.mk 0 300 []).put "q" sampleResult 5).entries.length = 1 := by
  decide

/-- C3 (amended): for `max_size ≥ 1`, a cache respecting the bound keeps
respecting it after any put; a put into a cache at capacity evicts
exactly one entry — the one with the smallest `lastAccessedAt`, ties
broken by earliest insertion order — and afterwards the new entry is
present under its key with `insertedAt = lastAccessedAt = now`. -/
theorem C3_capacity_eviction (c : QueryCache) (q : String) (r : QueryResult)
    (now : Nat) (hmax : 1 ≤ c.max_size) (hinv : c.entries.length ≤ c.max_size)
    (hnd : NodupKeys c.entries) :
    (c.put q r now).entries.length ≤ c.max_size ∧
    (c.entries.length = c.max_size →
      ∃ m l1 l2, c.entries = l1 ++ m :: l2 ∧ evictOldest c.entries = l1 ++ l2 ∧
        (∀ e ∈ c.entries, m.lastAccessedAt ≤ e.lastAccessedAt) ∧
        (∀ e ∈ l1, m.lastAccessedAt < e.lastAccessedAt)) ∧
    lookupEntry (c.put q r now).entries (getCacheKey q) =
      some ⟨getCacheKey q, r, now, now⟩ := by
  refine ⟨?_, ?_, ?_⟩
  · rw [put_entries]
    by_cases hfull : c.max_size ≤ c.entries.length
    · have hlen : c.entries.length = c.max_size := le_antisymm hinv hfull
      have hne : c.entries ≠ [] := by
        intro hnil
        rw [hnil] at hlen
        simp at hlen
        omega
      have hev := evictOldest_length c.entries hnd hne
      have hins := insertEntry_length_le (evictOldest c.entries) (getCacheKey q) r now
      simp only [if_pos hfull]
      omega
    · have hins := insertEntry_length_le c.entries (getCacheKey q) r now
      simp only [if_neg hfull]
      omega
  · intro hcap
    have hne : c.entries ≠ [] := by
      intro hnil
      rw [hnil] at hcap
      simp at hcap
      omega
    exact evictOldest_spec c.entries hnd hne
  · rw [put_entries]
    exact lookup_insertEntry _ _ _ _

/-- C3 witness: a two-entry cache at capacity 2 with distinct keys; the
entry with access time 3 is the eviction candidate. -/
theorem C3_witness :
    (1 ≤ (QueryCache.mk 2 300 [⟨"a", sampleResult, 0, 5⟩, ⟨"b", sampleResult, 1, 3⟩]).max_size ∧
      (QueryCache.mk 2 300 [⟨"a", sampleResult, 0, 5⟩, ⟨"b", sampleResult, 1, 3⟩]).entries.length ≤ 2 ∧
      NodupKeys (QueryCache.mk 2 300 [⟨"a", sampleResult, 0, 5⟩, ⟨"b", sampleResult, 1, 3⟩]).entries) ∧
    (((QueryCache.mk 2 300 [⟨"a", sampleResult, 0, 5⟩, ⟨"b", sampleResult, 1, 3⟩]).put "q" sampleResult 7).entries.length ≤
        (QueryCache.mk 2 300 [⟨"a", sampleResult, 0, 5⟩, ⟨"b", sampleResult, 1, 3⟩]).max_size ∧
      ((QueryCache.mk 2 300 [⟨"a", sampleResult, 0, 5⟩, ⟨"b", sampleResult, 1, 3⟩]).entries.length =
          (QueryCache.mk 2 300 [⟨"a", sampleResult, 0, 5⟩, ⟨"b", sampleResult, 1, 3⟩]).max_size →
        ∃ m l1 l2,
          (QueryCache.mk 2 300 [⟨"a", sampleResult, 0, 5⟩, ⟨"b", sampleResult, 1, 3⟩]).entries = l1 ++ m :: l2 ∧
          evictOldest (QueryCache.mk 2 300 [⟨"a", sampleResult, 0, 5⟩, ⟨"b", sampleResult, 1, 3⟩]).entries = l1 ++ l2 ∧
          (∀ e ∈ (QueryCache.mk 2 300 [⟨"a", sampleResult, 0, 5⟩, ⟨"b", sampleResult, 1, 3⟩]).entries,
            m.lastAccessedAt ≤ e.lastAccessedAt) ∧
          (∀ e ∈ l1, m.lastAccessedAt < e.lastAccessedAt)) ∧
      lookupEntry
        (((QueryCache.mk 2 300 [⟨"a", sampleResult, 0, 5⟩, ⟨"b", sampleResult, 1, 3⟩]).put "q" sampleResult 7).entries)
        (getCacheKey "q") = some ⟨getCacheKey "q", sampleResult, 7, 7⟩) :=
  ⟨⟨by decide, by decide, by decide⟩,
    C3_capacity_eviction (QueryCache.mk 2 300 [⟨"a", sampleResult, 0, 5⟩, ⟨"b", sampleResult, 1, 3⟩])
      "q" sampleResult 7 (by decide) (by decide) (by decide)⟩

/-- C4 (confirmed): for the cached entry found under the canonical key of
a query, a lookup with `now − insertedAt ≥ ttl` misses and purges the
entry, and a lookup with `now − insertedAt < ttl` returns the stored
value and sets the entry's `lastAccessedAt` to `now`. -/
theorem C4_ttl_expiry (c : QueryCache) (q : String) (now : Nat) (e : CacheEntry)
    (hnd : NodupKeys c.entries)
    (hl : lookupEntry c.entries (getCacheKey q) = some e) :
    (c.ttl_seconds ≤ now - e.insertedAt →
      (c.get q now).1 = none ∧
      lookupEntry ((c.get q now).2).entries (getCacheKey q) = none) ∧
    (now - e.insertedAt < c.ttl_seconds →
      (c.get q now).1 = some e.value ∧
      lookupEntry ((c.get q now).2).entries (getCacheKey q) =
        some { e with lastAccessedAt := now }) := by
  constructor
  · intro hexp
    have hnl : ¬ now - e.insertedAt < c.ttl_seconds := by omega
    rw [get_expired c q now e hl hnl]
    exact ⟨rfl, eraseKey_lookup_none c.entries (getCacheKey q) hnd⟩
  · intro hfresh
    rw [get_hit c q now e hl hfresh]
    exact ⟨rfl, touch_lookup c.entries (getCacheKey q) now e hl⟩

/-- C4 witness: a single-entry cache with ttl 10 queried at time 12 (the
expiry branch fires; the freshness branch holds vacuously). -/
theorem C4_witness :
    (NodupKeys (QueryCache.mk 50 10 [⟨"a", sampleResult, 0, 0⟩]).entries ∧
      lookupEntry (QueryCache.mk 50 10 [⟨"a", sampleResult, 0, 0⟩]).entries
        (getCacheKey "A ") = some ⟨"a", sampleResult, 0, 0⟩) ∧
    (((QueryCache.mk 50 10 [⟨"a", sampleResult, 0, 0⟩]).ttl_seconds ≤
        12 - (CacheEntry.mk "a" sampleResult 0 0).insertedAt →
      ((QueryCache.mk 50 10 [⟨"a", sampleResult, 0, 0⟩]).get "A " 12).1 = none ∧
      lookupEntry (((QueryCache.mk 50 10 [⟨"a", sampleResult, 0, 0⟩]).get "A " 12).2).entries
        (getCacheKey "A ") = none) ∧
    (12 - (CacheEntry.mk "a" sampleResult 0 0).insertedAt <
        (QueryCache.mk 50 10 [⟨"a", sampleResult, 0, 0⟩]).ttl_seconds →
      ((QueryCache.mk 50 10 [⟨"a", sampleResult, 0, 0⟩]).get "A " 12).1 =
        some (CacheEntry.mk "a" sampleResult 0 0).value ∧
      lookupEntry (((QueryCache.mk 50 10 [⟨"a", sampleResult, 0, 0⟩]).get "A " 12).2).entries
        (getCacheKey "A ") =
        some { CacheEntry.mk "a" sampleResult 0 0 with lastAccessedAt := 12 })) :=
  ⟨⟨by decide, by decide⟩,
    C4_ttl_expiry (QueryCache.mk 50 10 [⟨"a", sampleResult, 0, 0⟩]) "A " 12
      (CacheEntry.mk "a" sampleResult 0 0) (by decide) (by decide)⟩

/-- C5, counterexample: " select * from users" equals "select * from users"
after case-folding and trimming, and the first call caches the result,
but the second call is DENIED: `has_permission` dispatches on the raw
text without stripping, recognises no leading keyword on a text starting
with whitespace, and returns false even though the credential holds
SELECT — so the second call raises instead of returning the cached value. -/
theorem C5_counterexample :
    canonText " select * from users" = canonText "select * from users" ∧
    (proxyReader.execute_query "select * from users" 0).1 =
      Except.ok sampleResult ∧
    ((proxyReader.execute_query "select * from users" 0).2.execute_query
        " select * from users" 1).1 = Except.error ProxyError.permissionError := by
  decide

/-- C5 (amended): for two read texts that both pass the (non-stripping)
permission check, share the same canonical key, where the first — a
select-text — was issued on a cache miss and succeeded, the second call
within the TTL window returns exactly the first result, leaves the store
handle (and thus its call counters) untouched, and changes the metrics
only by one cache-hit increment. -/
theorem C5_cache_hit_equivalence (p : DatabaseProxy) (q1 q2 : String)
    (now1 now2 : Nat) (r : QueryResult) (p1 : DatabaseProxy)
    (hperm1 : p.user_permissions.has_permission q1 = true)
    (hperm2 : p.user_permissions.has_permission q2 = true)
    (hkey : getCacheKey q2 = getCacheKey q1)
    (hsel : startsWithStr (canonText q1) "select" = true)
    (hmiss : (p.query_cache.get q1 now1).1 = none)
    (hfirst : p.execute_query q1 now1 = (Except.ok r, p1))
    (httl : now2 - now1 < p.query_cache.ttl_seconds) :
    (p1.execute_query q2 now2).1 = Except.ok r ∧
    ((p1.execute_query q2 now2).2).real_service = p1.real_service ∧
    ((p1.execute_query q2 now2).2).metrics = record_cache_hit p1.metrics := by
  obtain ⟨hcache, huser, httl2⟩ :=
    execute_query_ok_shape p q1 now1 r p1 hperm1 hmiss hsel hfirst
  have hlook : lookupEntry p1.query_cache.entries (getCacheKey q2) =
      some ⟨getCacheKey q1, r, now1, now1⟩ := by
    rw [hkey, hcache, put_entries]
    exact lookup_insertEntry _ _ _ _
  have hfresh : now2 - (CacheEntry.mk (getCacheKey q1) r now1 now1).insertedAt <
      p1.query_cache.ttl_seconds := by
    rw [httl2]
    exact httl
  have hhit := get_hit p1.query_cache q2 now2 _ hlook hfresh
  have hp2 : p1.user_permissions.has_permission q2 = true := by
    rw [huser]
    exact hperm2
  have hexec := execute_query_hit p1 q2 now2 r _ hp2 (by rw [hhit])
  rw [hexec]
  exact ⟨rfl, rfl, rfl⟩

/-- C5 witness: the read-only proxy answers "select * from users" from
the store at time 0 and "SELECT * FROM USERS  " from the cache at time 1. -/
theorem C5_witness :
    (proxyReader.user_permissions.has_permission "select * from users" = true ∧
      proxyReader.user_permissions.has_permission "SELECT * FROM USERS  " = true ∧
      getCacheKey "SELECT * FROM USERS  " = getCacheKey "select * from users" ∧
      startsWithStr (canonText "select * from users") "select" = true ∧
      (proxyReader.query_cache.get "select * from users" 0).1 = none ∧
      1 - 0 < proxyReader.query_cache.ttl_seconds) ∧
    ((((proxyReader.execute_query "select * from users" 0).2).execute_query
        "SELECT * FROM USERS  " 1).1 = Except.ok sampleResult ∧
      ((((proxyReader.execute_query "select * from users" 0).2).execute_query
          "SELECT * FROM USERS  " 1).2).real_service =
        ((proxyReader.execute_query "select * from users" 0).2).real_service ∧
      ((((proxyReader.execute_query "select * from users" 0).2).execute_query
          "SELECT * FROM USERS  " 1).2).metrics =
        record_cache_hit ((proxyReader.execute_query "select * from users" 0).2).metrics) :=
  ⟨⟨by decide, by decide, by decide, by decide, by decide, by decide⟩,
    C5_cache_hit_equivalence proxyReader "select * from users"
      "SELECT * FROM USERS  " 0 1 sampleResult
      ((proxyReader.execute_query "select * from users" 0).2)
      (by decide) (by decide) (by decide) (by decide) (by decide)
      (by rfl) (by decide)⟩

/-- C6, counterexample: with a connected service and no open transaction,
`commit_transaction` and `rollback_transaction` RETURN `false` — they
complete normally rather than failing with any error; the code defines no
`TransactionStateError` (and the proxy-error type needs none). -/
theorem C6_counterexample :
    proxyIdle.real_service = some (Store.mk true false 0 0) ∧
    (proxyIdle.commit_transaction 3).1 = false ∧
    (proxyIdle.rollback_transaction 3).1 = false := by
  decide

/-- C6 (amended): whenever the service was never created, or the store
reports no open transaction, `commit_transaction` and
`rollback_transaction` both return `false` (no exception is raised; no
error kind for this exists in the code). -/
theorem C6_no_open_transaction (p : DatabaseProxy) (now : Nat)
    (h : p.real_service = none ∨
      ∃ s, p.real_service = some s ∧ s.in_transaction = false) :
    (p.commit_transaction now).1 = false ∧ (p.rollback_transaction now).1 = false := by
  unfold DatabaseProxy.commit_transaction DatabaseProxy.rollback_transaction
  rcases h with h | ⟨s, hs, ht⟩
  · rw [h]
    exact ⟨rfl, rfl⟩
  · rw [hs]
    simp [Store.commit_transaction, Store.rollback_transaction, ht]

/-- C6 witness: the amended theorem applied to the idle proxy. -/
theorem C6_witness :
    (proxyIdle.real_service = none ∨
      ∃ s, proxyIdle.real_service = some s ∧ s.in_transaction = false) ∧
    ((proxyIdle.commit_transaction 3).1 = false ∧
      (proxyIdle.rollback_transaction 3).1 = false) :=
  ⟨Or.inr ⟨Store.mk true false 0 0, rfl, rfl⟩,
    C6_no_open_transaction proxyIdle 3 (Or.inr ⟨Store.mk true false 0 0, rfl, rfl⟩)⟩

/-- C7 (confirmed): when the store's query execution raises on a
cache-miss `execute_query` (the store being reachable), the proxy
propagates the execution error, appends an audit record with
`success = false` and `rows_returned = 0` as the last trail entry, leaves
the query-count metric unchanged, and inserts nothing into the cache
(every entry afterwards was already there — the lookup only purges). -/
theorem C7_store_error (p : DatabaseProxy) (q : String) (now : Nat)
    (hp : p.user_permissions.has_permission q = true)
    (hmiss : (p.query_cache.get q now).1 = none)
    (hconn : (p.real_service.getD Store.init).connected = true ∨
      p.behavior.connectOk = true)
    (hqf : p.behavior.queryFn q = none) :
    (p.execute_query q now).1 = Except.error ProxyError.executionError ∧
    ((p.execute_query q now).2).audit_logger.getLast? =
      some (log_query_entry p.user_permissions.user_id now q none) ∧
    (log_query_entry p.user_permissions.user_id now q none).success = false ∧
    (log_query_entry p.user_permissions.user_id now q none).rows_returned = some 0 ∧
    ((p.execute_query q now).2).metrics.query_count = p.metrics.query_count ∧
    (∀ e ∈ ((p.execute_query q now).2).query_cache.entries,
      e ∈ p.query_cache.entries) := by
  obtain ⟨h1, h2, h3, h4⟩ := execute_query_fail_shape p q now hp hmiss hconn hqf
  refine ⟨h1, h2, rfl, rfl, h3, ?_⟩
  rw [h4]
  exact get_none_subset p.query_cache q now hmiss

/-- C7 witness: the failing store raises on "SELECT 1" through the
read-only proxy with a connected service. -/
theorem C7_witness :
    (proxyFailing.user_permissions.has_permission "SELECT 1" = true ∧
      (proxyFailing.query_cache.get "SELECT 1" 0).1 = none ∧
      ((proxyFailing.real_service.getD Store.init).connected = true ∨
        proxyFailing.behavior.connectOk = true) ∧
      proxyFailing.behavior.queryFn "SELECT 1" = none) ∧
    ((proxyFailing.execute_query "SELECT 1" 0).1 =
        Except.error ProxyError.executionError ∧
      ((proxyFailing.execute_query "SELECT 1" 0).2).audit_logger.getLast? =
        some (log_query_entry proxyFailing.user_permissions.user_id 0 "SELECT 1" none) ∧
      (log_query_entry proxyFailing.user_permissions.user_id 0 "SELECT 1" none).success = false ∧
      (log_query_entry proxyFailing.user_permissions.user_id 0 "SELECT 1" none).rows_returned = some 0 ∧
      ((proxyFailing.execute_query "SELECT 1" 0).2).metrics.query_count =
        proxyFailing.metrics.query_count ∧
      (∀ e ∈ ((proxyFailing.execute_query "SELECT 1" 0).2).query_cache.entries,
        e ∈ proxyFailing.query_cache.entries)) :=
  ⟨⟨by decide, by decide, by decide, by decide⟩,
    C7_store_error proxyFailing "SELECT 1" 0 (by decide) (by decide)
      (by decide) (by decide)⟩

/-- C8 (confirmed): a credential whose capability set contains ADMIN
passes every per-kind check, and `has_permission` returns true for every
operation text that classifies into one of the recognised kinds
(SELECT/INSERT/UPDATE/DELETE and the DDL keywords). -/
theorem C8_admin_authorizes_all (up : UserPermissions) (op : String)
    (hadmin : up.permissions.contains PermissionType.ADMIN = true)
    (hop : recognizedOp op = true) :
    up.has_permission op = true ∧
    up.can_execute_select = true ∧ up.can_execute_insert = true ∧
    up.can_execute_update = true ∧ up.can_execute_delete = true ∧
    up.can_execute_ddl = true := by
  have h1 : up.can_execute_select = true := by
    unfold UserPermissions.can_execute_select
    rw [hadmin, Bool.or_true]
  have h2 : up.can_execute_insert = true := by
    unfold UserPermissions.can_execute_insert
    rw [hadmin, Bool.or_true]
  have h3 : up.can_execute_update = true := by
    unfold UserPermissions.can_execute_update
    rw [hadmin, Bool.or_true]
  have h4 : up.can_execute_delete = true := by
    unfold UserPermissions.can_execute_delete
    rw [hadmin, Bool.or_true]
  have h5 : up.can_execute_ddl = true := by
    unfold UserPermissions.can_execute_ddl
    rw [hadmin, Bool.or_true]
  refine ⟨?_, h1, h2, h3, h4, h5⟩
  simp only [UserPermissions.has_permission]
  simp only [recognizedOp] at hop
  split_ifs with a b c d e
  · exact h1
  · exact h2
  · exact h3
  · exact h4
  · exact h5
  · exfalso
    simp only [Bool.or_eq_true] at hop e
    tauto

/-- C8 witness: the admin credential authorizes a DDL text. -/
theorem C8_witness :
    (adminUser.permissions.contains PermissionType.ADMIN = true ∧
      recognizedOp "DROP TABLE users" = true) ∧
    (adminUser.has_permission "DROP TABLE users" = true ∧
      adminUser.can_execute_select = true ∧ adminUser.can_execute_insert = true ∧
      adminUser.can_execute_update = true ∧ adminUser.can_execute_delete = true ∧
      adminUser.can_execute_ddl = true) :=
  ⟨⟨by decide, by decide⟩,
    C8_admin_authorizes_all adminUser "DROP TABLE users" (by decide) (by decide)⟩

/-- C9 (confirmed): `rollback_transaction` never touches the cache; the
whole `QueryCache` — hence every entry — is unchanged in every branch
(service missing, rollback refused, rollback succeeded). -/
theorem C9_rollback_preserves_cache (p : DatabaseProxy) (now : Nat) :
    ((p.rollback_transaction now).2).query_cache = p.query_cache := by
  unfold DatabaseProxy.rollback_transaction
  rcases hs : p.real_service with - | svc
  · rfl
  · by_cases ht : svc.in_transaction = true
    · simp [Store.rollback_transaction, ht]
    · simp only [Bool.not_eq_true] at ht
      simp [Store.rollback_transaction, ht]

/-- C10 (confirmed): the audit record appended by a successful
`execute_update` — the last entry of the trail — records
`success = true` yet `rows_returned = 0`, whatever affected-row count the
store returned: `log_query` computes `rows_returned` from `result.rows`,
which an `int` does not have. -/
theorem C10_update_audit_zero_rows (p : DatabaseProxy) (q : String) (now : Nat)
    (n : Int) (p1 : DatabaseProxy)
    (h : p.execute_update q now = (Except.ok n, p1)) :
    p1.audit_logger.getLast? =
      some (log_query_entry p.user_permissions.user_id now q
        (some (LogValue.updateCount n))) ∧
    (log_query_entry p.user_permissions.user_id now q
      (some (LogValue.updateCount n))).success = true ∧
    (log_query_entry p.user_permissions.user_id now q
      (some (LogValue.updateCount n))).rows_returned = some 0 :=
  ⟨(execute_update_ok_shape p q now n p1 h).1, rfl, rfl⟩

/-- C10 witness: a successful UPDATE through the idle proxy affects 3
rows but is audited with `rows_returned = 0`. -/
theorem C10_witness :
    proxyIdle.execute_update "UPDATE users SET a = 1" 4 =
      (Except.ok 3, (proxyIdle.execute_update "UPDATE users SET a = 1" 4).2) ∧
    (((proxyIdle.execute_update "UPDATE users SET a = 1" 4).2).audit_logger.getLast? =
        some (log_query_entry proxyIdle.user_permissions.user_id 4
          "UPDATE users SET a = 1" (some (LogValue.updateCount 3))) ∧
      (log_query_entry proxyIdle.user_permissions.user_id 4
        "UPDATE users SET a = 1" (some (LogValue.updateCount 3))).success = true ∧
      (log_query_entry proxyIdle.user_permissions.user_id 4
        "UPDATE users SET a = 1" (some (LogValue.updateCount 3))).rows_returned = some 0) :=
  ⟨by rfl,
    C10_update_audit_zero_rows proxyIdle "UPDATE users SET a = 1" 4 3
      ((proxyIdle.execute_update "UPDATE users SET a = 1" 4).2) (by rfl)⟩

end ProxySpec
